import Mathlib

/-!
Verification development for the ULSA / DTRAS drone-threat analysis repository.

The repository ships its v2 documentation (src/DOCUMENTATION.md), the React
frontend (src/frontend/src/App.jsx) and legacy v1 material; the v2 Python
backend (api.py) is not part of the source tree, so backend behaviour is
modelled from the documentation and specification where needed, while frontend
behaviour (CSV export, classification, centroid, rendering) is embedded
directly from App.jsx.  All machine reals are modelled as rationals.

The file is organized as definitions first, then theorems.
-/

namespace ULSA

/-! ## Definitions: AHP weights (src/DOCUMENTATION.md, AHP Factor Breakdown) -/

/-- Documented weight of factor 1, Distance to Core: 36.29%. -/
def wDist : ℚ := 3629 / 10000

/-- Documented weight of factor 2, Building Structure: 29.24%. -/
def wBuilding : ℚ := 2924 / 10000

/-- Documented weight of factor 3, Road Infrastructure: 13.68%. -/
def wRoad : ℚ := 1368 / 10000

/-- Documented weight of factor 4, Elevation Profile: 10.57%. -/
def wElev : ℚ := 1057 / 10000

/-- Documented weight of factor 5, Land Use (LULC): 10.57%. -/
def wLulc : ℚ := 1057 / 10000

/-- Documented weight of factor 6, Visual Line of Sight: 4.60%. -/
def wVlos : ℚ := 460 / 10000

/-- Documented weight of factor 7, Terrain Type: 2.54%. -/
def wTerrain : ℚ := 254 / 10000

/-- Sum of the seven documented AHP weights. -/
def weightSum : ℚ := wDist + wBuilding + wRoad + wElev + wLulc + wVlos + wTerrain

/-! ## Definitions: score-band classification (src/frontend/src/App.jsx,
downloadCSV lines 59-65; the popup riskLevel in App.jsx and in the older
frontend uses the same strict comparisons) -/

/-- Classification of a threat score, embedded from downloadCSV:
`let classification = 'Medium'; if (ts > 80) 'Critical'; else if (ts > 50) 'High'`. -/
def classification (ts : ℚ) : String :=
  if ts > 80 then "Critical" else if ts > 50 then "High" else "Medium"

/-! ## Definitions: JavaScript cell values and rounding -/

/-- A JavaScript value stored in a CSV row object: a number or a string. -/
inductive JsVal where
  | num (q : ℚ) : JsVal
  | str (s : String) : JsVal
  deriving DecidableEq

/-- JavaScript Math.round: round half toward positive infinity. -/
def jsRound (q : ℚ) : ℤ := Int.floor (q + 1 / 2)

/-- Left-pad a string with zeros to length k (decimal rendering helper). -/
def padZeros (s : String) (k : ℕ) : String :=
  String.mk (List.replicate (k - s.length) '0') ++ s

/-- Render the integer n as a decimal with k fractional digits (n counts
units of 10^(-k)), mirroring the output shape of JavaScript toFixed. -/
def renderFixed (n : ℤ) (k : ℕ) : String :=
  let m := n.natAbs
  let base := 10 ^ k
  (if n < 0 then "-" else "") ++ toString (m / base) ++
    (if k = 0 then "" else "." ++ padZeros (toString (m % base)) k)

/-- JavaScript Number.prototype.toFixed(k): round q to k decimal places,
ties toward positive infinity, and render with exactly k fractional digits. -/
def toFixed (k : ℕ) (q : ℚ) : String :=
  renderFixed (Int.floor (q * (10 : ℚ) ^ k + 1 / 2)) k

/-! ## Definitions: CSV export cells (src/frontend/src/App.jsx, downloadCSV
lines 71-92).  JavaScript truthiness on a number is falsy exactly at 0 (and
NaN/undefined, which have no rational counterpart), so each conditional
`props.x ? ... : ...` is embedded as a test against 0. -/

/-- Risk Score column: `props.threat_score ? props.threat_score.toFixed(1) : 'N/A'`. -/
def riskScoreCell (ts : ℚ) : JsVal :=
  if ts ≠ 0 then JsVal.str (toFixed 1 ts) else JsVal.str ("N/A")

/-- Altitude (m) column: `props.elevation_z ? Math.round(props.elevation_z) : 'N/A'`. -/
def altitudeCell (z : ℚ) : JsVal :=
  if z ≠ 0 then JsVal.num (jsRound z) else JsVal.str ("N/A")

/-- Road Distance (m) column: `props.dist_to_road ? Math.round(props.dist_to_road) : 'N/A'`. -/
def roadDistCell (r : ℚ) : JsVal :=
  if r ≠ 0 then JsVal.num (jsRound r) else JsVal.str ("N/A")

/-- Distance to Target column: `props.dist_to_center ? (>= 1000 ? km : m) : 'N/A'`. -/
def distToTargetCell (d : ℚ) : JsVal :=
  if d ≠ 0 then
    (if 1000 ≤ d then JsVal.str (toFixed 2 (d / 1000) ++ " km")
     else JsVal.str (toString (jsRound d) ++ " m"))
  else JsVal.str ("N/A")

/-- Security Distance (m) column, embedded from downloadCSV line 91:
`props.nearest_security_dist < 999 ? Math.round(props.nearest_security_dist) : 'None'`. -/
def securityDistCell (d : ℚ) : JsVal :=
  if d < 999 then JsVal.num (jsRound d) else JsVal.str ("None")

/-! ## Definitions: ScoringEngine (modelled: the v2 backend api.py is not in
the tree).  Factor rules follow src/DOCUMENTATION.md section 2 and spec
section 4.6. -/

/-- Candidate family: Alley (corridor), Vegetation, or Building (rooftop). -/
inductive Family where
  | Alley : Family
  | Vegetation : Family
  | Building : Family
  deriving DecidableEq

/-- Modelled from the spec: the mutable Candidate work item of the missing
backend, restricted to the attributes the seven scoring factors read. -/
structure Candidate where
  family : Family
  distToTarget : ℚ
  buildingType : String
  roadType : String
  elevation : ℚ
  landTag : String
  isHidden : Bool
  naturalTag : String
  deriving DecidableEq

/-- Modelled from the spec: factor 1 normalization (missing backend api.py).
Distance to target: below 500 m scores 5, above 5000 m scores 1, linear
interpolation between, discretized by flooring to keep an integer score. -/
def distScore (d : ℚ) : ℤ :=
  if d < 500 then 5
  else if d > 5000 then 1
  else 5 - Int.floor (4 * (d - 500) / 4500)

/-- Modelled from the spec: factor 2 normalization (missing backend api.py).
Building structure, Rooftop only: residential 5, government/public 3,
commercial 2; non-Rooftop candidates use the neutral default 3. -/
def buildingScore (fam : Family) (btype : String) : ℤ :=
  match fam with
  | Family.Building =>
      if btype = "residential" then 5
      else if btype = "government" ∨ btype = "public" then 3
      else if btype = "commercial" then 2
      else 3
  | _ => 3

/-- Modelled from the spec: factor 3 normalization (missing backend api.py).
Road classification by lookup over the nearest OSM highway tag:
unpaved/village 5, residential 4, expressway/motorway 1, default 3. -/
def roadScore (tag : String) : ℤ :=
  if tag = "unpaved" ∨ tag = "track" ∨ tag = "village" then 5
  else if tag = "residential" then 4
  else if tag = "motorway" ∨ tag = "expressway" ∨ tag = "trunk" then 1
  else 3

/-- Modelled from the spec: factor 4 normalization (missing backend api.py).
Elevation profile: more than 10 m above the target scores 5, more than 10 m
below scores 2, within 10 m scores 3. -/
def elevScore (z zTarget : ℚ) : ℤ :=
  if z - zTarget > 10 then 5 else if z - zTarget < -10 then 2 else 3

/-- Modelled from the spec: factor 5 normalization (missing backend api.py).
Land cover: Corridor candidates default to 5; otherwise barren 5,
grass/fallow 3, agriculture 2, default 3, by lookup over the surface tag. -/
def lulcScore (fam : Family) (tag : String) : ℤ :=
  match fam with
  | Family.Alley => 5
  | _ =>
      if tag = "barren" ∨ tag = "sand" then 5
      else if tag = "grass" ∨ tag = "fallow" then 3
      else if tag = "farmland" ∨ tag = "agriculture" then 2
      else 3

/-- Modelled from the spec: factor 6 normalization (missing backend api.py).
Visual exposure: hidden 5, exposed 1. -/
def vlosScore (hidden : Bool) : ℤ :=
  if hidden then 5 else 1

/-- Modelled from the spec: factor 7 normalization (missing backend api.py).
Terrain type by lookup over the natural tag: hills/peaks 5, water/wetland 4,
plains (default) 2. -/
def terrainScore (tag : String) : ℤ :=
  if tag = "hill" ∨ tag = "peak" then 5
  else if tag = "water" ∨ tag = "wetland" then 4
  else 2

/-- Weighted sum of the seven factor scores: each 1-5 score is rescaled by 20
and multiplied by its AHP weight (src/DOCUMENTATION.md, Example Calculation). -/
def weightedSum (s1 s2 s3 s4 s5 s6 s7 : ℤ) : ℚ :=
  (s1 : ℚ) * 20 * wDist + (s2 : ℚ) * 20 * wBuilding + (s3 : ℚ) * 20 * wRoad +
    (s4 : ℚ) * 20 * wElev + (s5 : ℚ) * 20 * wLulc + (s6 : ℚ) * 20 * wVlos +
    (s7 : ℚ) * 20 * wTerrain

/-- Modelled from the spec: the final threat score of the missing backend —
the weighted sum of the candidate's seven recorded factor scores, capped
at 100. -/
def threatScore (zTarget : ℚ) (c : Candidate) : ℚ :=
  min 100 (weightedSum (distScore c.distToTarget)
    (buildingScore c.family c.buildingType) (roadScore c.roadType)
    (elevScore c.elevation zTarget) (lulcScore c.family c.landTag)
    (vlosScore c.isHidden) (terrainScore c.naturalTag))

/-- The five admissible factor scores. -/
def scoreSet : Finset ℤ := {1, 2, 3, 4, 5}

/-- The rooftop scenario of the documented example: residential building,
300 m from the core, unpaved road access, 15 m above the target, grassy
surroundings, hidden from the road, plain terrain. -/
def rooftopScenario : Candidate :=
  { family := Family.Building
    distToTarget := 300
    buildingType := "residential"
    roadType := "unpaved"
    elevation := 15
    landTag := "grass"
    isHidden := true
    naturalTag := "plains" }

/-! ## Definitions: generation-time area filtering (modelled: backend api.py
missing).  src/DOCUMENTATION.md 4.1: corridors keep area 25-2000 m²,
rooftops keep area 50-5000 m². -/

/-- A raw polygon candidate before area filtering: an identifier and its
area in square meters. -/
structure RawSite where
  id : ℕ
  area : ℚ
  deriving DecidableEq

/-- Modelled from the spec: the corridor area filter of the missing backend —
keep a corridor polygon exactly when its area lies in [25, 2000] m². -/
def corridorKeep (s : RawSite) : Bool :=
  decide (25 ≤ s.area ∧ s.area ≤ 2000)

/-- Modelled from the spec: the rooftop area filter of the missing backend —
keep a building footprint exactly when its area lies in [50, 5000] m². -/
def rooftopKeep (s : RawSite) : Bool :=
  decide (50 ≤ s.area ∧ s.area ≤ 5000)

/-- Modelled from the spec: corridor generation emits the raw corridor
polygons that pass the area filter, in order. -/
def generateCorridors (raw : List RawSite) : List RawSite :=
  raw.filter corridorKeep

/-- Modelled from the spec: rooftop generation emits the building footprints
that pass the area filter, in order. -/
def generateRooftops (raw : List RawSite) : List RawSite :=
  raw.filter rooftopKeep

/-! ## Definitions: the frontend centroid (src/frontend/src/App.jsx,
getCentroid lines 170-183) -/

/-- Embedded from App.jsx getCentroid: take the outer ring coordinates[0],
accumulate sumLat += ring[i][1] and sumLon += ring[i][0] over every listed
entry, and return [sumLat / ring.length, sumLon / ring.length].  Ring
entries are GeoJSON [lon, lat] pairs; the result is in [lat, lon] order. -/
def getCentroid (coordinates : List (List (ℚ × ℚ))) : ℚ × ℚ :=
  let ring := coordinates.headD []
  let sums := ring.foldl (fun acc pt => (acc.1 + pt.2, acc.2 + pt.1)) ((0 : ℚ), (0 : ℚ))
  (sums.1 / ring.length, sums.2 / ring.length)

/-- The consecutive vertex pairs of a ring, for the shoelace formula. -/
def adjacentPairs (ring : List (ℚ × ℚ)) : List ((ℚ × ℚ) × (ℚ × ℚ)) :=
  ring.zip ring.tail

/-- Twice the signed shoelace area of a closed ring of [lon, lat] pairs. -/
def shoelaceDoubleArea (ring : List (ℚ × ℚ)) : ℚ :=
  ((adjacentPairs ring).map (fun pq => pq.1.1 * pq.2.2 - pq.2.1 * pq.1.2)).sum

/-- Reference definition following the spec's words: the polygon's area
centroid (shoelace formula), reported in [lat, lon] order so it is directly
comparable with getCentroid. -/
def areaCentroidLatLon (ring : List (ℚ × ℚ)) : ℚ × ℚ :=
  let a2 := shoelaceDoubleArea ring
  let cLon := ((adjacentPairs ring).map
    (fun pq => (pq.1.1 + pq.2.1) * (pq.1.1 * pq.2.2 - pq.2.1 * pq.1.2))).sum / (3 * a2)
  let cLat := ((adjacentPairs ring).map
    (fun pq => (pq.1.2 + pq.2.2) * (pq.1.1 * pq.2.2 - pq.2.1 * pq.1.2))).sum / (3 * a2)
  (cLat, cLon)

/-- A closed square ring (side 4) with the GeoJSON closing vertex repeating
the first point: five listed entries. -/
def sqRing : List (ℚ × ℚ) := [(0, 0), (4, 0), (4, 4), (0, 4), (0, 0)]

/-! ## Definitions: CSV escaping (src/frontend/src/App.jsx, downloadCSV
lines 96-112).  Cells are modelled as character lists; the emitted file uses
a bare line feed as its record separator, so a cell-level RFC 4180 parser
for this file treats line feed, comma and double quote as the delimiters. -/

/-- Double every double-quote character, embedding value.replace(/"/g, s). -/
def doubleQuotes : List Char → List Char
  | [] => []
  | c :: t => if c = '"' then '"' :: '"' :: doubleQuotes t else c :: doubleQuotes t

/-- Embedded from downloadCSV: a string cell that contains a comma or a
double quote is wrapped in double quotes with embedded quotes doubled;
otherwise it is emitted verbatim. -/
def csvEscape (l : List Char) : List Char :=
  if l.contains ',' || l.contains '"' then '"' :: (doubleQuotes l ++ ['"']) else l

/-- RFC 4180 quoted-cell body parser: consumes the characters after the
opening quote; a doubled quote stands for one quote, a lone closing quote
must end the cell, anything else is cell content. -/
def parseQuotedRest : List Char → Option (List Char)
  | [] => none
  | [c] => if c = '"' then some [] else none
  | c :: d :: rest =>
    if c = '"' then
      (if d = '"' then (parseQuotedRest rest).map (fun t => '"' :: t) else none)
    else (parseQuotedRest (d :: rest)).map (fun t => c :: t)

/-- RFC 4180 cell parser for a file whose record separator is a line feed:
a cell starting with a double quote is parsed as a quoted cell; otherwise it
is a bare cell, valid only if free of double quotes, commas and line feeds. -/
def parseCsvCell : List Char → Option (List Char)
  | [] => some []
  | c :: rest =>
    if c = '"' then parseQuotedRest rest
    else if (c :: rest).contains '"' || (c :: rest).contains ',' ||
        (c :: rest).contains '\n' then none
    else some (c :: rest)

/-! ## Definitions: line-of-sight against the building mass
(check_line_of_sight, src/DOCUMENTATION.md 7.2 and the legacy technical
documentation).  The snippet builds the sight segment from the candidate
centroid to the nearest road node and returns
sight_line.intersects(buildings_union); Shapely intersects is true exactly
when the two closed geometries share at least one point, boundary included.
The building union is modelled as a finite union of closed axis-aligned
rectangles in the projected plane. -/

/-- A closed axis-aligned rectangle (a building footprint of the modelled
building mass). -/
structure Rect where
  xmin : ℚ
  xmax : ℚ
  ymin : ℚ
  ymax : ℚ
  deriving DecidableEq

/-- Membership in the closed rectangle (boundary included). -/
def inRect (R : Rect) (p : ℚ × ℚ) : Prop :=
  R.xmin ≤ p.1 ∧ p.1 ≤ R.xmax ∧ R.ymin ≤ p.2 ∧ p.2 ≤ R.ymax

/-- Membership in the open interior of the rectangle. -/
def inRectInterior (R : Rect) (p : ℚ × ℚ) : Prop :=
  R.xmin < p.1 ∧ p.1 < R.xmax ∧ R.ymin < p.2 ∧ p.2 < R.ymax

/-- Membership in the rectangle's boundary: in the closed set, not interior. -/
def onRectBoundary (R : Rect) (p : ℚ × ℚ) : Prop :=
  inRect R p ∧ ¬ inRectInterior R p

/-- The point at parameter t of the segment from a to b. -/
def segPoint (a b : ℚ × ℚ) (t : ℚ) : ℚ × ℚ :=
  (a.1 + t * (b.1 - a.1), a.2 + t * (b.2 - a.2))

/-- The closed segment from a to b shares a point with some closed building
rectangle — the meaning of Shapely sight_line.intersects(buildings_union). -/
def segMeets (a b : ℚ × ℚ) (buildings : List Rect) : Prop :=
  ∃ t, 0 ≤ t ∧ t ≤ 1 ∧ ∃ R ∈ buildings, inRect R (segPoint a b t)

/-- Embedded from the documented snippet: is_hidden is the intersection test
of the centroid-to-road sight line against the building union. -/
def check_line_of_sight (centroid nearestNode : ℚ × ℚ) (buildingsUnion : List Rect) : Prop :=
  segMeets centroid nearestNode buildingsUnion

/-- The segment passes through the open interior of some building — the
predicate the claim says is equivalent to isHidden. -/
def segCrossesInterior (a b : ℚ × ℚ) (buildings : List Rect) : Prop :=
  ∃ t, 0 ≤ t ∧ t ≤ 1 ∧ ∃ R ∈ buildings, inRectInterior R (segPoint a b t)

/-- The segment touches the boundary of some building. -/
def segTouchesBoundary (a b : ℚ × ℚ) (buildings : List Rect) : Prop :=
  ∃ t, 0 ≤ t ∧ t ≤ 1 ∧ ∃ R ∈ buildings, onRectBoundary R (segPoint a b t)

/-- The closed unit square building. -/
def unitSquare : Rect := ⟨0, 1, 0, 1⟩

/-! ## Theorems: C1 — sum of the documented AHP weights -/

/-- C1 counterexample: the seven documented AHP weights do NOT sum to 1.0
within 1e-6; their sum differs from 1 by more than the claimed tolerance. -/
theorem weightSum_not_one : ¬ |weightSum - 1| ≤ 1 / 1000000 := by
  have h : weightSum - 1 = 749 / 10000 := by
    norm_num [weightSum, wDist, wBuilding, wRoad, wElev, wLulc, wVlos, wTerrain]
  rw [h, abs_of_pos (by norm_num)]
  norm_num

/-- C1 (amended): the seven documented AHP weights (0.3629, 0.2924, 0.1368,
0.1057, 0.1057, 0.0460, 0.0254) sum to exactly 1.0749, not to 1.0. -/
theorem weightSum_eq : weightSum = 10749 / 10000 := by
  norm_num [weightSum, wDist, wBuilding, wRoad, wElev, wLulc, wVlos, wTerrain]

/-! ## Theorems: C5 — score-band classification -/

/-- C5 counterexample: a candidate with threatScore exactly 50 is classified
"Medium" by the code, not "High" as the claim states. -/
theorem classification_at_fifty :
    classification 50 = "Medium" ∧ ("Medium" : String) ≠ "High" := by
  constructor
  · norm_num [classification]
  · decide

/-- C5 (amended): the classification assigns "Critical" exactly when
threatScore > 80, "High" exactly when 50 < threatScore ≤ 80, and "Medium"
exactly when threatScore ≤ 50 (a score of exactly 50 is Medium). -/
theorem classification_bands (ts : ℚ) :
    (classification ts = "Critical" ↔ 80 < ts) ∧
    (classification ts = "High" ↔ 50 < ts ∧ ts ≤ 80) ∧
    (classification ts = "Medium" ↔ ts ≤ 50) := by
  have hCH : ("Critical" : String) ≠ "High" := by decide
  have hCM : ("Critical" : String) ≠ "Medium" := by decide
  have hHM : ("High" : String) ≠ "Medium" := by decide
  unfold classification
  split_ifs with h1 h2
  · exact ⟨⟨fun _ => h1, fun _ => rfl⟩,
      ⟨fun h => absurd h hCH, fun h => absurd h1 (not_lt.mpr h.2)⟩,
      ⟨fun h => absurd h hCM, fun h => absurd h1 (not_lt.mpr (h.trans (by norm_num)))⟩⟩
  · exact ⟨⟨fun h => absurd h.symm hCH, fun h => absurd h h1⟩,
      ⟨fun _ => ⟨h2, not_lt.mp h1⟩, fun _ => rfl⟩,
      ⟨fun h => absurd h hHM, fun h => absurd h2 (not_lt.mpr h)⟩⟩
  · exact ⟨⟨fun h => absurd h.symm hCM, fun h => absurd h h1⟩,
      ⟨fun h => absurd h.symm hHM, fun h => absurd h.1 h2⟩,
      ⟨fun _ => not_lt.mp h2, fun _ => rfl⟩⟩

/-! ## Theorems: C6 — security-distance rendering -/

/-- C6 counterexample: a candidate whose nearest security asset was found at
1000 m (well below the sentinel 9999) is rendered "None" by the export code,
not as the numeric distance. -/
theorem securityDistCell_at_1000 :
    (1000 : ℚ) < 9999 ∧ securityDistCell 1000 = JsVal.str ("None") ∧
      securityDistCell 1000 ≠ JsVal.num (jsRound 1000) := by
  refine ⟨by norm_num, ?_, ?_⟩
  · norm_num [securityDistCell]
  · norm_num [securityDistCell]
    exact fun h => JsVal.noConfusion h

/-- C6 (amended): the CSV export renders the rounded numeric distance exactly
when nearest_security_dist < 999, and renders "None" exactly when
nearest_security_dist ≥ 999 — so the sentinel 9999 renders "None", but so
does every genuine distance of at least 999 m. -/
theorem securityDistCell_bands (d : ℚ) :
    (d < 999 → securityDistCell d = JsVal.num (jsRound d)) ∧
    (999 ≤ d → securityDistCell d = JsVal.str ("None")) := by
  constructor
  · intro h
    simp [securityDistCell, h]
  · intro h
    simp [securityDistCell, not_lt.mpr h]

/-- C6 witness: at the documented sentinel 9999 the export renders "None". -/
theorem securityDistCell_bands_witness :
    securityDistCell 9999 = JsVal.str ("None") :=
  (securityDistCell_bands 9999).2 (by norm_num)

/-! ## Theorems: C2 — factor-score ranges and the threat-score formula -/

theorem distScore_mem (d : ℚ) : distScore d ∈ scoreSet := by
  unfold distScore scoreSet
  split_ifs with h1 h2
  · decide
  · decide
  · have hlo : (0 : ℤ) ≤ Int.floor (4 * (d - 500) / 4500) := by
      apply Int.le_floor.mpr
      push_cast
      have hd : (500 : ℚ) ≤ d := not_lt.mp h1
      exact div_nonneg (by linarith) (by norm_num)
    have hhi : Int.floor (4 * (d - 500) / 4500) ≤ 4 := by
      have hd : d ≤ 5000 := not_lt.mp h2
      have hq : 4 * (d - 500) / 4500 ≤ 4 := by linarith
      have := (Int.floor_le (4 * (d - 500) / 4500)).trans hq
      exact_mod_cast this
    simp only [Finset.mem_insert, Finset.mem_singleton]
    omega

theorem buildingScore_mem (fam : Family) (btype : String) :
    buildingScore fam btype ∈ scoreSet := by
  unfold buildingScore scoreSet
  cases fam <;> first
    | decide
    | (split_ifs <;> decide)

theorem roadScore_mem (tag : String) : roadScore tag ∈ scoreSet := by
  unfold roadScore scoreSet
  split_ifs <;> decide

theorem elevScore_mem (z zTarget : ℚ) : elevScore z zTarget ∈ scoreSet := by
  unfold elevScore scoreSet
  split_ifs <;> decide

theorem lulcScore_mem (fam : Family) (tag : String) :
    lulcScore fam tag ∈ scoreSet := by
  unfold lulcScore scoreSet
  cases fam <;> first
    | decide
    | (split_ifs <;> decide)

theorem vlosScore_mem (hidden : Bool) : vlosScore hidden ∈ scoreSet := by
  unfold vlosScore scoreSet
  split_ifs <;> decide

theorem terrainScore_mem (tag : String) : terrainScore tag ∈ scoreSet := by
  unfold terrainScore scoreSet
  split_ifs <;> decide

/-- A score drawn from scoreSet lies between 1 and 5. -/
theorem scoreSet_bounds {s : ℤ} (h : s ∈ scoreSet) : 1 ≤ s ∧ s ≤ 5 := by
  unfold scoreSet at h
  simp only [Finset.mem_insert, Finset.mem_singleton] at h
  omega

/-- The weighted sum of seven in-range scores is nonnegative (indeed at least
20 times the weight sum). -/
theorem weightedSum_nonneg {s1 s2 s3 s4 s5 s6 s7 : ℤ}
    (h1 : 1 ≤ s1) (h2 : 1 ≤ s2) (h3 : 1 ≤ s3) (h4 : 1 ≤ s4)
    (h5 : 1 ≤ s5) (h6 : 1 ≤ s6) (h7 : 1 ≤ s7) :
    0 ≤ weightedSum s1 s2 s3 s4 s5 s6 s7 := by
  unfold weightedSum wDist wBuilding wRoad wElev wLulc wVlos wTerrain
  have c1 : (1 : ℚ) ≤ (s1 : ℚ) := by exact_mod_cast h1
  have c2 : (1 : ℚ) ≤ (s2 : ℚ) := by exact_mod_cast h2
  have c3 : (1 : ℚ) ≤ (s3 : ℚ) := by exact_mod_cast h3
  have c4 : (1 : ℚ) ≤ (s4 : ℚ) := by exact_mod_cast h4
  have c5 : (1 : ℚ) ≤ (s5 : ℚ) := by exact_mod_cast h5
  have c6 : (1 : ℚ) ≤ (s6 : ℚ) := by exact_mod_cast h6
  have c7 : (1 : ℚ) ≤ (s7 : ℚ) := by exact_mod_cast h7
  nlinarith

/-- C2: every one of the seven factor scores of a candidate is an integer in
{1,2,3,4,5}, the final threat score equals min(100, Σ factor × 20 × weight)
over the candidate's recorded factor values, and the threat score always lies
in [0, 100]. -/
theorem threatScore_spec (zTarget : ℚ) (c : Candidate) :
    distScore c.distToTarget ∈ scoreSet ∧
    buildingScore c.family c.buildingType ∈ scoreSet ∧
    roadScore c.roadType ∈ scoreSet ∧
    elevScore c.elevation zTarget ∈ scoreSet ∧
    lulcScore c.family c.landTag ∈ scoreSet ∧
    vlosScore c.isHidden ∈ scoreSet ∧
    terrainScore c.naturalTag ∈ scoreSet ∧
    threatScore zTarget c =
      min 100 (weightedSum (distScore c.distToTarget)
        (buildingScore c.family c.buildingType) (roadScore c.roadType)
        (elevScore c.elevation zTarget) (lulcScore c.family c.landTag)
        (vlosScore c.isHidden) (terrainScore c.naturalTag)) ∧
    0 ≤ threatScore zTarget c ∧ threatScore zTarget c ≤ 100 := by
  refine ⟨distScore_mem _, buildingScore_mem _ _, roadScore_mem _,
    elevScore_mem _ _, lulcScore_mem _ _, vlosScore_mem _,
    terrainScore_mem _, rfl, ?_, min_le_left _ _⟩
  apply le_min (by norm_num)
  exact weightedSum_nonneg
    (scoreSet_bounds (distScore_mem _)).1
    (scoreSet_bounds (buildingScore_mem _ _)).1
    (scoreSet_bounds (roadScore_mem _)).1
    (scoreSet_bounds (elevScore_mem _ _)).1
    (scoreSet_bounds (lulcScore_mem _ _)).1
    (scoreSet_bounds (vlosScore_mem _)).1
    (scoreSet_bounds (terrainScore_mem _)).1

/-! ## Theorems: C3 — the documented end-to-end rooftop scenario -/

/-- C3 counterexample: with factor scores {5,5,5,5,5,5,2} the weighted sum is
exactly 105.966, which is not approximately 101.74 (it differs by more than
4), so the claimed scenario arithmetic is wrong as stated. -/
theorem weightedSum_all_fives :
    weightedSum 5 5 5 5 5 5 2 = 52983 / 500 ∧
      ¬ |weightedSum 5 5 5 5 5 5 2 - 10174 / 100| ≤ 1 / 100 := by
  have h : weightedSum 5 5 5 5 5 5 2 = 52983 / 500 := by
    norm_num [weightedSum, wDist, wBuilding, wRoad, wElev, wLulc, wVlos, wTerrain]
  refine ⟨h, ?_⟩
  rw [h]
  rw [show (52983 : ℚ) / 500 - 10174 / 100 = 2113 / 500 by norm_num,
    abs_of_pos (by norm_num)]
  norm_num

/-- C3 (amended): the documented residential-rooftop scenario scores
{5,5,5,5,3,5,2} (land cover grass/fallow gives 3, not 5), its weighted sum
is exactly 101.738 — the documentation displays it rounded as 101.74 — the
capped threat score is exactly 100, and its classification is "Critical";
factor scores {5,5,5,5,5,5,2} would instead sum to 105.966. -/
theorem rooftopScenario_spec :
    distScore rooftopScenario.distToTarget = 5 ∧
    buildingScore rooftopScenario.family rooftopScenario.buildingType = 5 ∧
    roadScore rooftopScenario.roadType = 5 ∧
    elevScore rooftopScenario.elevation 0 = 5 ∧
    lulcScore rooftopScenario.family rooftopScenario.landTag = 3 ∧
    vlosScore rooftopScenario.isHidden = 5 ∧
    terrainScore rooftopScenario.naturalTag = 2 ∧
    weightedSum 5 5 5 5 3 5 2 = 50869 / 500 ∧
    |weightedSum 5 5 5 5 3 5 2 - 10174 / 100| ≤ 1 / 100 ∧
    threatScore 0 rooftopScenario = 100 ∧
    classification (threatScore 0 rooftopScenario) = "Critical" := by
  have hsum : weightedSum 5 5 5 5 3 5 2 = 50869 / 500 := by
    norm_num [weightedSum, wDist, wBuilding, wRoad, wElev, wLulc, wVlos, wTerrain]
  have hclose : |weightedSum 5 5 5 5 3 5 2 - 10174 / 100| ≤ 1 / 100 := by
    rw [hsum, show (50869 : ℚ) / 500 - 10174 / 100 = -(1 / 500) by norm_num,
      abs_neg, abs_of_pos (by norm_num)]
    norm_num
  have hd : distScore rooftopScenario.distToTarget = 5 := by
    norm_num [distScore, rooftopScenario]
  have hb : buildingScore rooftopScenario.family rooftopScenario.buildingType = 5 := by
    norm_num [buildingScore, rooftopScenario]
  have hr : roadScore rooftopScenario.roadType = 5 := by
    norm_num [roadScore, rooftopScenario]
  have he : elevScore rooftopScenario.elevation 0 = 5 := by
    norm_num [elevScore, rooftopScenario]
  have hl : lulcScore rooftopScenario.family rooftopScenario.landTag = 3 := by
    decide
  have hv : vlosScore rooftopScenario.isHidden = 5 := by
    norm_num [vlosScore, rooftopScenario]
  have ht : terrainScore rooftopScenario.naturalTag = 2 := by
    decide
  have hscore : threatScore 0 rooftopScenario = 100 := by
    unfold threatScore
    rw [show rooftopScenario.elevation = (15 : ℚ) from rfl] at he ⊢
    rw [hd, hb, hr, he, hl, hv, ht, hsum]
    norm_num
  exact ⟨hd, hb, hr, he, hl, hv, ht, hsum, hclose, hscore, by
    rw [hscore]; norm_num [classification]⟩

/-! ## Theorems: C7 — generation-time area bounds -/

/-- C7: every emitted Corridor candidate has area in [25, 2000] and every
emitted Rooftop candidate has area in [50, 5000]; a raw polygon whose area
lies outside its family's bounds is deterministically rejected (it never
appears in the generated list). -/
theorem generation_area_bounds (rawC rawB : List RawSite) (s : RawSite) :
    (s ∈ generateCorridors rawC → 25 ≤ s.area ∧ s.area ≤ 2000) ∧
    (s ∈ generateRooftops rawB → 50 ≤ s.area ∧ s.area ≤ 5000) ∧
    ((s.area < 25 ∨ 2000 < s.area) → s ∉ generateCorridors rawC) ∧
    ((s.area < 50 ∨ 5000 < s.area) → s ∉ generateRooftops rawB) := by
  refine ⟨?_, ?_, ?_, ?_⟩
  · intro hmem
    have := (List.mem_filter.mp hmem).2
    simpa [corridorKeep] using this
  · intro hmem
    have := (List.mem_filter.mp hmem).2
    simpa [rooftopKeep] using this
  · intro hout hmem
    have := (List.mem_filter.mp hmem).2
    simp only [corridorKeep, decide_eq_true_eq] at this
    rcases hout with h | h
    · linarith [this.1]
    · linarith [this.2]
  · intro hout hmem
    have := (List.mem_filter.mp hmem).2
    simp only [rooftopKeep, decide_eq_true_eq] at this
    rcases hout with h | h
    · linarith [this.1]
    · linarith [this.2]

/-- C7 witness: in a concrete raw layer with areas 10 and 100 m², the 100 m²
polygon is kept by corridor generation and its area is certified in bounds;
the 10 m² polygon is rejected. -/
theorem generation_area_bounds_witness :
    (⟨1, 100⟩ : RawSite) ∈ generateCorridors [⟨0, 10⟩, ⟨1, 100⟩] ∧
      (25 ≤ (100 : ℚ) ∧ (100 : ℚ) ≤ 2000) ∧
      (⟨0, 10⟩ : RawSite) ∉ generateCorridors [⟨0, 10⟩, ⟨1, 100⟩] :=
  ⟨by decide,
    (generation_area_bounds [⟨0, 10⟩, ⟨1, 100⟩] [] ⟨1, 100⟩).1 (by decide),
    (generation_area_bounds [⟨0, 10⟩, ⟨1, 100⟩] [] ⟨0, 10⟩).2.2.1
      (Or.inl (by norm_num))⟩

/-! ## Theorems: C8 — the frontend centroid -/

/-- The centroid accumulation loop computes the coordinatewise sums. -/
theorem centroid_foldl (ring : List (ℚ × ℚ)) (a b : ℚ) :
    ring.foldl (fun acc pt => (acc.1 + pt.2, acc.2 + pt.1)) (a, b) =
      (a + (ring.map Prod.snd).sum, b + (ring.map Prod.fst).sum) := by
  induction ring generalizing a b with
  | nil => simp
  | cons p t ih => simp [ih, add_assoc]

/-- On a feature whose coordinate list starts with its outer ring,
getCentroid is the vertex mean of the ring in [lat, lon] order. -/
theorem getCentroid_cons (ring : List (ℚ × ℚ)) (rest : List (List (ℚ × ℚ))) :
    getCentroid (ring :: rest) =
      ((ring.map Prod.snd).sum / ring.length, (ring.map Prod.fst).sum / ring.length) := by
  unfold getCentroid
  simp only [List.headD_cons]
  rw [centroid_foldl]
  simp

/-- C8: for every polygon feature with a non-empty outer ring of n listed
coordinate pairs, getCentroid returns the unweighted arithmetic mean of all
n listed entries (the closing vertex included) in [lat, lon] order; on the
closed square ring this mean is (8/5, 8/5), which differs from the
polygon's area centroid (2, 2) — the attack-vector origin is the vertex
mean, not the area centroid. -/
theorem getCentroid_mean (coords : List (List (ℚ × ℚ))) (ring : List (ℚ × ℚ))
    (rest : List (List (ℚ × ℚ))) (hc : coords = ring :: rest) (hne : ring ≠ []) :
    getCentroid coords =
      ((ring.map Prod.snd).sum / ring.length, (ring.map Prod.fst).sum / ring.length) ∧
    getCentroid [sqRing] = (8 / 5, 8 / 5) ∧
    areaCentroidLatLon sqRing = (2, 2) ∧
    getCentroid [sqRing] ≠ areaCentroidLatLon sqRing := by
  have hu : ring ≠ [] := hne
  subst hc
  have h1 : getCentroid [sqRing] = (8 / 5, 8 / 5) := by
    rw [getCentroid_cons]
    norm_num [sqRing]
  have h2 : areaCentroidLatLon sqRing = (2, 2) := by
    norm_num [areaCentroidLatLon, shoelaceDoubleArea, adjacentPairs, sqRing]
  refine ⟨getCentroid_cons ring rest, h1, h2, ?_⟩
  intro hcontra
  rw [h1, h2] at hcontra
  have := congrArg Prod.fst hcontra
  norm_num at this

/-- C8 witness: on a concrete triangle ring, getCentroid is the vertex mean
(4, 3); and the square-ring disagreement with the area centroid holds. -/
theorem getCentroid_mean_witness :
    getCentroid [[((1 : ℚ), 2), (3, 4), (5, 6)]] = (4, 3) ∧
      getCentroid [sqRing] ≠ areaCentroidLatLon sqRing := by
  have h := getCentroid_mean [[((1 : ℚ), 2), (3, 4), (5, 6)]]
    [((1 : ℚ), 2), (3, 4), (5, 6)] [] rfl (by simp)
  refine ⟨?_, h.2.2.2⟩
  rw [h.1]
  norm_num

/-! ## Theorems: C9 — zero values export as N/A -/

/-- C9: in the CSV export, a feature whose threat_score, elevation_z,
dist_to_road, or dist_to_center equals 0 gets the string "N/A" in the
corresponding column (JavaScript truthiness makes 0 falsy), rather than the
numeric value 0; in particular the documented fallback elevation 0 exports
Altitude as "N/A". -/
theorem csv_zero_na (ts z r d : ℚ) :
    (ts = 0 → riskScoreCell ts = JsVal.str ("N/A")) ∧
    (z = 0 → altitudeCell z = JsVal.str ("N/A")) ∧
    (r = 0 → roadDistCell r = JsVal.str ("N/A")) ∧
    (d = 0 → distToTargetCell d = JsVal.str ("N/A")) := by
  refine ⟨fun h => ?_, fun h => ?_, fun h => ?_, fun h => ?_⟩ <;> subst h <;>
    simp [riskScoreCell, altitudeCell, roadDistCell, distToTargetCell]

/-- C9 witness: all four columns render "N/A" at the concrete value 0. -/
theorem csv_zero_na_witness :
    riskScoreCell 0 = JsVal.str ("N/A") ∧ altitudeCell 0 = JsVal.str ("N/A") ∧
      roadDistCell 0 = JsVal.str ("N/A") ∧ distToTargetCell 0 = JsVal.str ("N/A") :=
  ⟨(csv_zero_na 0 0 0 0).1 rfl, (csv_zero_na 0 0 0 0).2.1 rfl,
    (csv_zero_na 0 0 0 0).2.2.1 rfl, (csv_zero_na 0 0 0 0).2.2.2 rfl⟩

/-! ## Theorems: C10 — CSV escaping round-trip -/

/-- Parsing the quote-doubled body followed by the closing quote recovers
the original characters. -/
theorem parseQuotedRest_doubleQuotes (l : List Char) :
    parseQuotedRest (doubleQuotes l ++ ['"']) = some l := by
  induction l with
  | nil => simp [doubleQuotes, parseQuotedRest]
  | cons c t ih =>
    by_cases hc : c = '"'
    · subst hc
      simp only [doubleQuotes, if_pos rfl, List.cons_append]
      simp [parseQuotedRest, ih]
    · have hdq : doubleQuotes (c :: t) = c :: doubleQuotes t := by
        simp [doubleQuotes, hc]
      rw [hdq, List.cons_append]
      rcases hL : doubleQuotes t ++ ['"'] with _ | ⟨d, L2⟩
      · simp at hL
      · simp only [parseQuotedRest, if_neg hc]
        rw [← hL, ih]
        rfl

/-- C10: for every string cell value containing no newline character, the
downloadCSV escaping round-trips — an RFC 4180 cell parse of the emitted
cell recovers the original value. -/
theorem csvEscape_roundtrip (l : List Char) (h : l.contains '\n' = false) :
    parseCsvCell (csvEscape l) = some l := by
  by_cases hq : (l.contains ',' || l.contains '"') = true
  · rw [csvEscape, if_pos hq]
    simp [parseCsvCell, parseQuotedRest_doubleQuotes]
  · rw [csvEscape, if_neg hq]
    rcases l with _ | ⟨c, rest⟩
    · simp [parseCsvCell]
    · simp only [Bool.or_eq_true, not_or, Bool.not_eq_true] at hq
      obtain ⟨hq1, hq2⟩ := hq
      have hcne : c ≠ '"' := by
        intro he
        subst he
        simp [List.contains_cons] at hq2
      simp only [parseCsvCell]
      rw [if_neg hcne, hq2, hq1, h]
      simp

/-- C10 witness: the concrete cell value a,b (which contains a comma and no
newline) is escaped and parsed back to itself. -/
theorem csvEscape_roundtrip_witness :
    (['a', ',', 'b'].contains '\n' = false) ∧
      parseCsvCell (csvEscape ['a', ',', 'b']) = some ['a', ',', 'b'] :=
  ⟨by decide, csvEscape_roundtrip ['a', ',', 'b'] (by decide)⟩

/-! ## Theorems: C4 — line-of-sight against the building mass -/

/-- C4 counterexample: a sight segment from centroid (2, 1/2) to road node
(1, 1/2) only touches the boundary of the unit-square building at its right
edge, never entering the interior — yet check_line_of_sight reports hidden,
because the code tests intersection with the closed building mass. -/
theorem lineOfSight_boundary_touch :
    check_line_of_sight (2, 1/2) (1, 1/2) [unitSquare] ∧
      ¬ segCrossesInterior (2, 1/2) (1, 1/2) [unitSquare] := by
  constructor
  · refine ⟨1, by norm_num, le_refl 1, unitSquare, by simp, ?_⟩
    norm_num [inRect, segPoint, unitSquare]
  · rintro ⟨t, ht0, ht1, R, hR, hint⟩
    simp only [List.mem_singleton] at hR
    subst hR
    have h2 := hint.2.1
    simp only [segPoint, unitSquare] at h2
    norm_num at h2
    linarith

/-- C4 (amended): isHidden is true exactly when the centroid-to-road segment
meets the closed building mass — that is, it crosses a building interior or
merely touches a building boundary.  A boundary-only touch therefore yields
isHidden = true (hidden), and isHidden = false holds only when the segment
meets no building at all. -/
theorem lineOfSight_iff_closed_mass (a b : ℚ × ℚ) (buildings : List Rect) :
    check_line_of_sight a b buildings ↔
      segCrossesInterior a b buildings ∨ segTouchesBoundary a b buildings := by
  constructor
  · rintro ⟨t, ht0, ht1, R, hR, hin⟩
    by_cases hi : inRectInterior R (segPoint a b t)
    · exact Or.inl ⟨t, ht0, ht1, R, hR, hi⟩
    · exact Or.inr ⟨t, ht0, ht1, R, hR, hin, hi⟩
  · rintro (⟨t, ht0, ht1, R, hR, hi⟩ | ⟨t, ht0, ht1, R, hR, hin, hni⟩)
    · exact ⟨t, ht0, ht1, R, hR,
        le_of_lt hi.1, le_of_lt hi.2.1, le_of_lt hi.2.2.1, le_of_lt hi.2.2.2⟩
    · exact ⟨t, ht0, ht1, R, hR, hin⟩

end ULSA
